import Mathlib

/-!
Verification development for a Rust SDK client of the Tencent Cloud Hunyuan
API (files `src/signing.rs`, `src/client.rs`, `src/models.rs`).

Shallow embedding conventions:

* The SHA-256 and HMAC-SHA256 primitives come from external crates (`sha2`,
  `hmac`); the spec lists them as off-the-shelf collaborators.  They are
  modelled as an abstract `CryptoPrim` bundle of byte-level functions, and
  every theorem about the signing engine is universally quantified over it.
  Hex encoding (`hex::encode`) and UTF-8 encoding (`str::as_bytes`) are
  concrete and implemented here.
* Bytes are `Nat` values (each < 256 for real inputs); byte strings are
  `List Nat`.
* Rust panics (`unwrap`, `expect`) are modelled as `Option.none` results.
* The JSON codec (`serde_json`) is external; its behaviour on the concrete
  strings and data shapes the claims exercise is modelled by a small JSON
  value type, a total fuel-based parser, and per-struct decode functions
  following serde semantics (unknown object fields ignored, `Option` fields
  absent-or-null map to `None`, duplicate keys resolved to the first match
  here since no claim exercises duplicates).  JSON numbers are kept as raw
  lexemes: no claim inspects a numeric value.
-/

/-- JSON values, as produced by the external JSON codec.  Numbers are kept as
their source lexeme since no claim of this development inspects one. -/
inductive Json where
  | null : Json
  | bool (b : Bool) : Json
  | num (lexeme : String) : Json
  | str (s : String) : Json
  | arr (elems : List Json) : Json
  | obj (fields : List (String × Json)) : Json

/-- Left brace character, written via its code point. -/
def lbraceC : Char := Char.ofNat 123

/-- Right brace character, written via its code point. -/
def rbraceC : Char := Char.ofNat 125

/-- JSON whitespace. -/
def isJsonWs (c : Char) : Bool :=
  c == ' ' || c == '\t' || c == '\n' || c == '\r'

/-- Drop leading JSON whitespace. -/
def skipWs (cs : List Char) : List Char := cs.dropWhile isJsonWs

/-- Decode a single-character JSON escape (after a backslash). -/
def escChar (c : Char) : Option Char :=
  if c == '\"' then some '\"'
  else if c == '\\' then some '\\'
  else if c == '/' then some '/'
  else if c == 'b' then some (Char.ofNat 8)
  else if c == 'f' then some (Char.ofNat 12)
  else if c == 'n' then some '\n'
  else if c == 'r' then some (Char.ofNat 13)
  else if c == 't' then some '\t'
  else none

/-- Value of one hex digit. -/
def hexDigitVal (c : Char) : Option Nat :=
  if '0' ≤ c ∧ c ≤ '9' then some (c.toNat - 48)
  else if 'a' ≤ c ∧ c ≤ 'f' then some (c.toNat - 87)
  else if 'A' ≤ c ∧ c ≤ 'F' then some (c.toNat - 55)
  else none

/-- Parse the characters of a JSON string literal (cursor just after the
opening quote), returning the decoded characters and the rest of the input.
Surrogate pairs are not recombined; no claim exercises them. -/
def parseStrChars (fuel : Nat) (cs : List Char) : Option (List Char × List Char) :=
  match fuel with
  | 0 => none
  | f + 1 =>
    match cs with
    | [] => none
    | c :: rest =>
      if c == '\"' then some ([], rest)
      else if c == '\\' then
        match rest with
        | [] => none
        | e :: rest2 =>
          if e == 'u' then
            match rest2 with
            | h1 :: h2 :: h3 :: h4 :: rest3 =>
              match hexDigitVal h1, hexDigitVal h2, hexDigitVal h3, hexDigitVal h4 with
              | some v1, some v2, some v3, some v4 =>
                (parseStrChars f rest3).map
                  (fun p => (Char.ofNat (v1 * 4096 + v2 * 256 + v3 * 16 + v4) :: p.1, p.2))
              | _, _, _, _ => none
            | _ => none
          else
            match escChar e with
            | some ec => (parseStrChars f rest2).map (fun p => (ec :: p.1, p.2))
            | none => none
      else (parseStrChars f rest).map (fun p => (c :: p.1, p.2))

/-- Character that may occur in a JSON number lexeme. -/
def isNumChar (c : Char) : Bool :=
  c.isDigit || c == '-' || c == '+' || c == '.' || c == 'e' || c == 'E'

mutual

/-- Parse one JSON value.  Fuel-based total recursion; callers supply fuel
larger than the input length. -/
def parseVal (fuel : Nat) (cs : List Char) : Option (Json × List Char) :=
  match fuel with
  | 0 => none
  | f + 1 =>
    match skipWs cs with
    | [] => none
    | 'n' :: 'u' :: 'l' :: 'l' :: rest => some (Json.null, rest)
    | 't' :: 'r' :: 'u' :: 'e' :: rest => some (Json.bool true, rest)
    | 'f' :: 'a' :: 'l' :: 's' :: 'e' :: rest => some (Json.bool false, rest)
    | c :: rest =>
      if c == '\"' then
        (parseStrChars (rest.length + 1) rest).map
          (fun p => (Json.str (String.mk p.1), p.2))
      else if c == '[' then
        match skipWs rest with
        | c2 :: rest2 =>
          if c2 == ']' then some (Json.arr [], rest2)
          else (parseArrItems f (skipWs rest)).map (fun p => (Json.arr p.1, p.2))
        | [] => none
      else if c == lbraceC then
        match skipWs rest with
        | c2 :: rest2 =>
          if c2 == rbraceC then some (Json.obj [], rest2)
          else (parseObjItems f (skipWs rest)).map (fun p => (Json.obj p.1, p.2))
        | [] => none
      else if c.isDigit || c == '-' then
        let lexeme := (c :: rest).takeWhile isNumChar
        some (Json.num (String.mk lexeme), (c :: rest).dropWhile isNumChar)
      else none

/-- Parse the comma-separated items of a non-empty JSON array, including the
closing bracket. -/
def parseArrItems (fuel : Nat) (cs : List Char) : Option (List Json × List Char) :=
  match fuel with
  | 0 => none
  | f + 1 =>
    match parseVal f cs with
    | none => none
    | some (v, rest) =>
      match skipWs rest with
      | ',' :: rest2 => (parseArrItems f rest2).map (fun p => (v :: p.1, p.2))
      | c :: rest2 =>
        if c == ']' then some ([v], rest2) else none
      | [] => none

/-- Parse the comma-separated members of a non-empty JSON object, including
the closing brace. -/
def parseObjItems (fuel : Nat) (cs : List Char) : Option (List (String × Json) × List Char) :=
  match fuel with
  | 0 => none
  | f + 1 =>
    match skipWs cs with
    | c :: rest =>
      if c == '\"' then
        match parseStrChars (rest.length + 1) rest with
        | none => none
        | some (keyChars, rest2) =>
          match skipWs rest2 with
          | ':' :: rest3 =>
            match parseVal f rest3 with
            | none => none
            | some (v, rest4) =>
              match skipWs rest4 with
              | ',' :: rest5 =>
                (parseObjItems f rest5).map
                  (fun p => ((String.mk keyChars, v) :: p.1, p.2))
              | c2 :: rest5 =>
                if c2 == rbraceC then some ([(String.mk keyChars, v)], rest5)
                else none
              | [] => none
          | _ => none
      else none
    | [] => none

end

/-- Parse a whole string as one JSON document; the entire input must be
consumed apart from trailing whitespace, as the external codec requires. -/
def jsonFromStr (s : String) : Option Json :=
  match parseVal (2 * s.data.length + 4) s.data with
  | none => none
  | some (v, rest) =>
    match skipWs rest with
    | [] => some v
    | _ :: _ => none

/-!
## Cryptographic primitives (`src/signing.rs`)

`sha2::Sha256` and `hmac::Hmac<Sha256>` are external crates; the spec lists
them among the consumed collaborator interfaces.  They are modelled as an
abstract bundle of byte-level functions.  `hex::encode` and UTF-8 encoding
are concrete.
-/

/-- UTF-8 encoding of one character (the external `str::as_bytes` view). -/
def utf8EncodeChar (c : Char) : List Nat :=
  let n := c.toNat
  if n < 128 then [n]
  else if n < 2048 then [192 + n / 64, 128 + n % 64]
  else if n < 65536 then [224 + n / 4096, 128 + (n / 64) % 64, 128 + n % 64]
  else [240 + n / 262144, 128 + (n / 4096) % 64, 128 + (n / 64) % 64, 128 + n % 64]

/-- UTF-8 bytes of a string (Rust `s.as_bytes()`). -/
def utf8Bytes (s : String) : List Nat := s.data.flatMap utf8EncodeChar

/-- Lowercase hex digit for a value below 16. -/
def hexChar (k : Nat) : Char :=
  Char.ofNat (if k < 10 then 48 + k else 87 + k)

/-- Lowercase hex encoding of a byte string (the `hex::encode` collaborator). -/
def hexEncode (bs : List Nat) : String :=
  String.mk (bs.flatMap (fun b => [hexChar ((b / 16) % 16), hexChar (b % 16)]))

/-- Abstract SHA-256 / HMAC-SHA256 primitives (external `sha2` and `hmac`
crates): a digest function and a keyed MAC, both on byte strings. -/
structure CryptoPrim where
  sha256 : List Nat → List Nat
  hmacSha256 : List Nat → List Nat → List Nat

/-- Model of `signing.rs::sha256_hex`: hex-encoded SHA-256 of the UTF-8 bytes
of a string. -/
def sha256_hex (crypto : CryptoPrim) (data : String) : String :=
  hexEncode (crypto.sha256 (utf8Bytes data))

/-- Model of `signing.rs::hmac_sha256`: raw HMAC-SHA256 bytes of a string
message under a byte key. -/
def hmac_sha256 (crypto : CryptoPrim) (key : List Nat) (data : String) : List Nat :=
  crypto.hmacSha256 key (utf8Bytes data)

/-- Model of `signing.rs::hmac_sha256_hex`: hex-encoded `hmac_sha256`. -/
def hmac_sha256_hex (crypto : CryptoPrim) (key : List Nat) (data : String) : String :=
  hexEncode (hmac_sha256 crypto key data)

/-!
## Date conversion (external `time` crate)

`client.rs` converts the unix timestamp with
`OffsetDateTime::from_unix_timestamp(ts).unwrap().format("[Year]-[Month]-[Day]").unwrap()`.

`from_unix_timestamp` accepts exactly the timestamps whose instant lies in
the crate's representable range, years -9999 through 9999 UTC, i.e.
-377705116800 (`-9999-01-01T00:00:00Z`) through 253402300799
(`9999-12-31T23:59:59Z`), and errors (here: the `unwrap` panics, modelled as
`none`) outside it.  The conversion to a calendar date is the standard
proleptic-Gregorian civil-from-days computation, written here in Howard
Hinnant's formulation, which is extensionally the crate's Julian-day based
conversion.  The `[Year]` format item zero-pads the absolute year to four
digits and emits a leading minus sign for negative years; `[Month]` and
`[Day]` zero-pad to two digits.
-/

/-- Proleptic Gregorian date (year, month, day) of a day count relative to
1970-01-01 (Hinnant's civil-from-days algorithm, floor division). -/
def civilFromDays (z0 : Int) : Int × Int × Int :=
  let z := z0 + 719468
  let era := z / 146097
  let doe := z - era * 146097
  let yoe := (doe - doe / 1460 + doe / 36524 - doe / 146096) / 365
  let y := yoe + era * 400
  let doy := doe - (365 * yoe + yoe / 4 - yoe / 100)
  let mp := (5 * doy + 2) / 153
  let d := doy - (153 * mp + 2) / 5 + 1
  let m := if mp < 10 then mp + 3 else mp - 9
  (if m ≤ 2 then y + 1 else y, m, d)

/-- Decimal digit character of `k % 10`. -/
def digChar (k : Nat) : Char := Char.ofNat (48 + k % 10)

/-- Four zero-padded decimal digits (faithful for values up to 9999, the only
values reachable after the range check below). -/
def pad4Chars (n : Nat) : List Char :=
  [digChar (n / 1000), digChar (n / 100), digChar (n / 10), digChar n]

/-- Two zero-padded decimal digits (faithful for values up to 99). -/
def pad2Chars (n : Nat) : List Char := [digChar (n / 10), digChar n]

/-- Rendering of a date by the crate's `[Year]-[Month]-[Day]` format: a minus
sign for negative years, then zero-padded 4-digit year, 2-digit month and
2-digit day. -/
def formatYMD : Int × Int × Int → String
  | (y, m, d) =>
    String.mk ((if y < 0 then ['-'] else []) ++ pad4Chars y.natAbs ++ ['-'] ++
      pad2Chars m.toNat ++ ['-'] ++ pad2Chars d.toNat)

/-- Model of `OffsetDateTime::from_unix_timestamp`: the calendar date of the
timestamp, or `none` (panic at the `unwrap`) outside the crate's range. -/
def from_unix_timestamp (ts : Int) : Option (Int × Int × Int) :=
  if -377705116800 ≤ ts ∧ ts ≤ 253402300799 then
    some (civilFromDays (ts / 86400))
  else none

/-!
## Signing engine and client (`src/client.rs`)
-/

/-- Fixed service literal (`client.rs` `SERVICE`). -/
def SERVICE : String := "hunyuan"

/-- Fixed API version literal (`client.rs` `VERSION`). -/
def VERSION : String := "2023-09-01"

/-- Fixed action name literal (`client.rs` `ACTION_CHAT_COMPLETIONS`). -/
def ACTION_CHAT_COMPLETIONS : String := "ChatCompletions"

/-- Model of `Credential`. -/
structure Credential where
  secret_id : String
  secret_key : String
  token : Option String

/-- Model of `Region`. -/
inductive Region where
  | ApBeijing : Region
  | ApGuangzhou : Region
  | Custom (s : String) : Region

/-- Model of `Region::as_str`. -/
def Region.as_str : Region → String
  | Region.ApBeijing => "ap-beijing"
  | Region.ApGuangzhou => "ap-guangzhou"
  | Region.Custom s => s

/-- Model of `Client`.  The `reqwest` HTTP handle is an external transport
collaborator and is omitted; no modelled operation reads it. -/
structure Client where
  credential : Credential
  region : Region
  endpoint : String
  debug : Bool

/-- Model of `ClientBuilder` (the optional staged fields; the optional
transport handle is omitted as external). -/
structure ClientBuilder where
  credential : Option Credential
  region : Option Region
  endpoint : Option String
  debug : Option Bool

/-- Model of the `TENCENTCLOUD_SDK_DEBUG` environment parsing inside
`ClientBuilder::build`; the argument is the environment value, an external
input. -/
def envDebugFlag : Option String → Bool
  | some "1" => true
  | some "true" => true
  | some "TRUE" => true
  | some "on" => true
  | some "ON" => true
  | _ => false

/-- Model of `ClientBuilder::build`.  The `expect("credential is required")`
panic when no credential was supplied is modelled as `none`. -/
def ClientBuilder.build (b : ClientBuilder) (envVar : Option String) : Option Client :=
  let region := b.region.getD Region.ApGuangzhou
  let endpoint := b.endpoint.getD (SERVICE ++ ".tencentcloudapi.com")
  match b.credential with
  | none => none
  | some credential =>
    let env_debug := envDebugFlag envVar
    let debug := b.debug.getD env_debug
    some { credential := credential, region := region, endpoint := endpoint,
           debug := debug }

/-- Model of `Client::tc3_sign`.  The debug `eprintln!` side channel does not
affect the returned value and is omitted; the panic of the date conversion
for out-of-range timestamps is the `none` case.  The shadowed Rust local
`secret_key = format!("TC3{}", ...)` is named `secret_key_full`. -/
def tc3_sign (crypto : CryptoPrim) (sign_secret_key : String) (method : String)
    (canonical_uri : String) (canonical_querystring : String)
    (canonical_headers : String) (signed_headers : String)
    (hashed_payload : String) (timestamp : Int) : Option (String × String) :=
  let canonical_request := method ++ "\n" ++ canonical_uri ++ "\n" ++
    canonical_querystring ++ "\n" ++ canonical_headers ++ "\n" ++
    signed_headers ++ "\n" ++ hashed_payload
  let hashed_canonical_request := sha256_hex crypto canonical_request
  match from_unix_timestamp timestamp with
  | none => none
  | some ymd =>
    let date := formatYMD ymd
    let credential_scope := date ++ "/" ++ SERVICE ++ "/tc3_request"
    let string_to_sign := "TC3-HMAC-SHA256\n" ++ toString timestamp ++ "\n" ++
      credential_scope ++ "\n" ++ hashed_canonical_request
    let secret_key_full := "TC3" ++ sign_secret_key
    let secret_date := hmac_sha256 crypto (utf8Bytes secret_key_full) date
    let secret_service := hmac_sha256 crypto secret_date SERVICE
    let secret_signing := hmac_sha256 crypto secret_service "tc3_request"
    let signature := hmac_sha256_hex crypto secret_signing string_to_sign
    some (signature, credential_scope)

/-- Model of `Client::build_headers`: the header list in insertion order.
Header values are the strings handed to `HeaderValue::from_str`. -/
def build_headers (c : Client) (action : String) (_json_body : String)
    (timestamp : Int) : List (String × String) :=
  [("Host", c.endpoint),
   ("Content-Type", "application/json; charset=utf-8"),
   ("X-TC-Action", action),
   ("X-TC-Version", VERSION),
   ("X-TC-Region", c.region.as_str),
   ("X-TC-Timestamp", toString timestamp)] ++
  (match c.credential.token with
   | some token => [("X-TC-Token", token)]
   | none => [])

/-- The outgoing HTTP request assembled by `Client::call_action` just before
it is handed to the transport. -/
structure OutgoingRequest where
  url : String
  headers : List (String × String)
  body : String

/-- Model of the request-assembly half of `Client::call_action`: from the
serialized JSON body and the captured timestamp (both produced by external
collaborators: the JSON codec and the wall clock) to the outgoing request.
`none` models the panic of the signing date conversion. -/
def call_action_request (crypto : CryptoPrim) (c : Client) (action : String)
    (body : String) (timestamp : Int) : Option OutgoingRequest :=
  let method := "POST"
  let canonical_uri := "/"
  let canonical_querystring := ""
  let headers := build_headers c action body timestamp
  let host := c.endpoint
  let canonical_headers :=
    "content-type:application/json; charset=utf-8\nhost:" ++ host ++ "\n"
  let signed_headers := "content-type;host"
  let hashed_payload := sha256_hex crypto body
  match tc3_sign crypto c.credential.secret_key method canonical_uri
      canonical_querystring canonical_headers signed_headers hashed_payload
      timestamp with
  | none => none
  | some (signature, credential_scope) =>
    let authorization := "TC3-HMAC-SHA256 Credential=" ++
      c.credential.secret_id ++ "/" ++ credential_scope ++
      ", SignedHeaders=" ++ signed_headers ++ ", Signature=" ++ signature
    some { url := "https://" ++ c.endpoint ++ "/",
           headers := headers ++ [("Authorization", authorization)],
           body := body }

/-!
## Model and envelope types (`src/models.rs`)

The serde derives are modelled as explicit `Json`-value encode/decode
functions following serde semantics: fields carry their `rename` wire names,
unknown object fields are ignored, an `Option` field decodes `None` from a
missing key or an explicit `null`, and `Option` fields serialize as `null`
when absent.  `f32` fields (`temperature`, `top_p`) are kept as an abstract
type parameter: floating point itself is not shallow-embedded, and no claim
inspects a float value.
-/

/-- Model of `models.rs::ErrorContent`. -/
structure ErrorContent where
  code : String
  message : String
deriving DecidableEq

/-- Model of `models.rs::TencentCloudErrorResponse`. -/
structure TencentCloudErrorResponse where
  request_id : Option String
  error : Option ErrorContent
deriving DecidableEq

/-- Model of `models.rs::TencentCloudResponse<T>`, the generic success
envelope. -/
structure TencentCloudResponse (T : Type) where
  response : T
deriving DecidableEq

/-- Model of `models.rs::Message`. -/
structure Message where
  role : String
  content : String
deriving DecidableEq

/-- Model of `models.rs::ChatCompletionsRequest`, parametrized by the float
representation `F` of the `f32` fields. -/
structure ChatCompletionsRequest (F : Type) where
  model : Option String
  messages : List Message
  temperature : Option F
  top_p : Option F
  stream : Option Bool

/-- Serde decode of an optional struct field from its looked-up JSON value:
missing or `null` is `None`, anything else must decode as the inner type. -/
def decodeOptField (dec : Json → Option α) : Option Json → Option (Option α)
  | none => some none
  | some Json.null => some none
  | some j => (dec j).map some

/-- Serde decode of a JSON string. -/
def decodeString : Json → Option String
  | Json.str s => some s
  | _ => none

/-- Serde decode of a JSON boolean. -/
def decodeBool : Json → Option Bool
  | Json.bool b => some b
  | _ => none

/-- Serde decode of `ErrorContent` (both fields required strings, unknown
fields ignored). -/
def errorContentFromJson : Json → Option ErrorContent
  | Json.obj fields =>
    match fields.lookup "Code", fields.lookup "Message" with
    | some (Json.str code), some (Json.str message) =>
      some { code := code, message := message }
    | _, _ => none
  | _ => none

/-- Serde decode of `TencentCloudErrorResponse` (two optional fields,
unknown fields ignored). -/
def tencentCloudErrorResponseFromJson : Json → Option TencentCloudErrorResponse
  | Json.obj fields => do
    let request_id ← decodeOptField decodeString (fields.lookup "RequestId")
    let error ← decodeOptField errorContentFromJson (fields.lookup "Error")
    some { request_id := request_id, error := error }
  | _ => none

/-- Model of `serde_json::from_str::<TencentCloudErrorResponse>`. -/
def tencentCloudErrorResponseFromStr (s : String) : Option TencentCloudErrorResponse :=
  (jsonFromStr s).bind tencentCloudErrorResponseFromJson

/-- Serde decode of the generic success envelope `TencentCloudResponse<T>`:
the `Response` field is required. -/
def tencentCloudResponseFromJson (decT : Json → Option T) :
    Json → Option (TencentCloudResponse T)
  | Json.obj fields =>
    match fields.lookup "Response" with
    | some j => (decT j).map (fun v => { response := v })
    | none => none
  | _ => none

/-- Model of `serde_json::from_str::<TencentCloudResponse<T>>`. -/
def tencentCloudResponseFromStr (decT : Json → Option T) (s : String) :
    Option (TencentCloudResponse T) :=
  (jsonFromStr s).bind (tencentCloudResponseFromJson decT)

/-- Serde encode of `Message`. -/
def Message.toJson (m : Message) : Json :=
  Json.obj [("Role", Json.str m.role), ("Content", Json.str m.content)]

/-- Serde encode of an `Option` field (`None` serializes as `null`). -/
def encodeOptField (enc : α → Json) : Option α → Json
  | none => Json.null
  | some x => enc x

/-- Serde decode of `Message` (both fields required strings). -/
def Message.fromJson : Json → Option Message
  | Json.obj fields =>
    match fields.lookup "Role", fields.lookup "Content" with
    | some (Json.str role), some (Json.str content) =>
      some { role := role, content := content }
    | _, _ => none
  | _ => none

/-- Serde encode of `ChatCompletionsRequest`, fields in declaration order
with their wire names, given an encoder for the `f32` fields. -/
def ChatCompletionsRequest.toJson (encF : F → Json)
    (r : ChatCompletionsRequest F) : Json :=
  Json.obj
    [("Model", encodeOptField Json.str r.model),
     ("Messages", Json.arr (r.messages.map Message.toJson)),
     ("Temperature", encodeOptField encF r.temperature),
     ("TopP", encodeOptField encF r.top_p),
     ("Stream", encodeOptField Json.bool r.stream)]

/-- Serde decode of a `Vec<Message>` element list. -/
def decodeMessages : List Json → Option (List Message)
  | [] => some []
  | j :: rest =>
    match Message.fromJson j, decodeMessages rest with
    | some m, some ms => some (m :: ms)
    | _, _ => none

/-- Serde decode of `ChatCompletionsRequest` (the `Messages` vector is
required; the other fields are optional), given a decoder for the `f32`
fields. -/
def ChatCompletionsRequest.fromJson (decF : Json → Option F) :
    Json → Option (ChatCompletionsRequest F)
  | Json.obj fields => do
    let model ← decodeOptField decodeString (fields.lookup "Model")
    let messagesJson ← fields.lookup "Messages"
    let messages ← match messagesJson with
      | Json.arr elems => decodeMessages elems
      | _ => none
    let temperature ← decodeOptField decF (fields.lookup "Temperature")
    let top_p ← decodeOptField decF (fields.lookup "TopP")
    let stream ← decodeOptField decodeBool (fields.lookup "Stream")
    some { model := model, messages := messages, temperature := temperature,
           top_p := top_p, stream := stream }
  | _ => none

/-!
## Response handling (`Client::call_action`, lines 360-405)
-/

/-- Model of the `SdkError` variants reachable in the response-handling code
(the `Http` transport variant arises only from the external transport and the
`Serde` payload message is not inspected by any claim). -/
inductive SdkError where
  | serde : SdkError
  | service (code : String) (message : String) (request_id : Option String) : SdkError
deriving DecidableEq

/-- Model of `reqwest::StatusCode::is_success` (2xx). -/
def is_success (status : Nat) : Bool :=
  200 ≤ status && status < 300

/-- Model of the response-processing half of `Client::call_action`: from the
HTTP status and body text (delivered by the external transport) to the typed
result.  `parseT` is `serde_json::from_str::<TResp>` for the target response
type.  The debug `eprintln!` calls do not affect the result and are omitted;
no retry exists in the source. -/
def processResponse (parseT : String → Option T) (status : Nat)
    (text : String) : Except SdkError T :=
  if is_success status then
    match parseT text with
    | some parsed => Except.ok parsed
    | none => Except.error SdkError.serde
  else
    match tencentCloudErrorResponseFromStr text with
    | some err =>
      match err.error with
      | some e =>
        Except.error (SdkError.service e.code e.message err.request_id)
      | none =>
        Except.error (SdkError.service ("HTTP_" ++ toString status) text none)
    | none =>
      Except.error (SdkError.service ("HTTP_" ++ toString status) text none)

/-!
## Spec-side definitions

The following definitions transcribe the SPEC's wording of the signing
algorithm (spec sections 4.1 and 8), to be compared with the source-derived
`tc3_sign` above.
-/

/-- Spec wording, step 1: canonical request is the six components joined by
single newlines with no trailing modification. -/
def spec_canonical_request (method uri querystring headers signed payload : String) : String :=
  method ++ "\n" ++ uri ++ "\n" ++ querystring ++ "\n" ++ headers ++ "\n" ++
    signed ++ "\n" ++ payload

/-- Spec wording, step 3: the UTC calendar date of the timestamp, formatted
`YYYY-MM-DD`. -/
def spec_date (ts : Int) : String := formatYMD (civilFromDays (ts / 86400))

/-- Spec wording, step 4: credential scope is `{date}/{service}/tc3_request`
with service the fixed literal `"hunyuan"`. -/
def spec_credential_scope (ts : Int) : String :=
  spec_date ts ++ "/" ++ "hunyuan" ++ "/tc3_request"

/-- Spec wording, step 5: the string to sign. -/
def spec_string_to_sign (ts : Int) (hashed_canonical_request : String) : String :=
  "TC3-HMAC-SHA256\n" ++ toString ts ++ "\n" ++ spec_credential_scope ts ++ "\n" ++
    hashed_canonical_request

/-- Spec wording, step 6: the layered HMAC key chain and the final
lowercase-hex signature. -/
def spec_signature (crypto : CryptoPrim) (secret_key : String) (ts : Int)
    (canonical_request : String) : String :=
  let date := spec_date ts
  let secret_date := crypto.hmacSha256 (utf8Bytes ("TC3" ++ secret_key)) (utf8Bytes date)
  let secret_service := crypto.hmacSha256 secret_date (utf8Bytes "hunyuan")
  let secret_signing := crypto.hmacSha256 secret_service (utf8Bytes "tc3_request")
  let hashed_canonical_request := hexEncode (crypto.sha256 (utf8Bytes canonical_request))
  hexEncode (crypto.hmacSha256 secret_signing
    (utf8Bytes (spec_string_to_sign ts hashed_canonical_request)))

/-- Shape check for the claim "zero-padded YYYY-MM-DD (8 digits)": exactly
ten characters, digits everywhere except dashes at positions 4 and 7. -/
def isDateShape (s : String) : Bool :=
  match s.data with
  | [y1, y2, y3, y4, s1, m1, m2, s2, d1, d2] =>
    y1.isDigit && y2.isDigit && y3.isDigit && y4.isDigit && s1 == '-' &&
    m1.isDigit && m2.isDigit && s2 == '-' && d1.isDigit && d2.isDigit
  | _ => false

/-!
## Concrete instances used by witnesses and counterexamples
-/

/-- A trivial crypto bundle; theorems about the signing engine hold for every
bundle, so witnesses may use this one. -/
def cryptoZero : CryptoPrim where
  sha256 := fun _ => []
  hmacSha256 := fun _ _ => []

/-- A concrete client with a session token. -/
def clientTok : Client where
  credential := { secret_id := "AKID", secret_key := "SK", token := some "tok" }
  region := Region.ApGuangzhou
  endpoint := "hunyuan.tencentcloudapi.com"
  debug := false

/-- A concrete client without a session token. -/
def clientNoTok : Client where
  credential := { secret_id := "AKID", secret_key := "SK", token := none }
  region := Region.ApBeijing
  endpoint := "hunyuan.tencentcloudapi.com"
  debug := false

/-- The HTTP 401 body of end-to-end scenario 2 of the spec: the vendor error
envelope nested inside `Response`. -/
def body401 : String :=
  "\x7b\"Response\":\x7b\"Error\":\x7b\"Code\":\"AuthFailure.SignatureFailure\",\"Message\":\"bad sig\"\x7d,\"RequestId\":\"r2\"\x7d\x7d"

/-- The concrete outgoing request assembled for `clientTok`, action
`ChatCompletions`, body `\x7b\x7d`, timestamp 0 under `cryptoZero`. -/
def reqWitness : OutgoingRequest where
  url := "https://hunyuan.tencentcloudapi.com/"
  headers :=
    [("Host", "hunyuan.tencentcloudapi.com"),
     ("Content-Type", "application/json; charset=utf-8"),
     ("X-TC-Action", "ChatCompletions"),
     ("X-TC-Version", "2023-09-01"),
     ("X-TC-Region", "ap-guangzhou"),
     ("X-TC-Timestamp", "0"),
     ("X-TC-Token", "tok"),
     ("Authorization",
      "TC3-HMAC-SHA256 Credential=AKID/1970-01-01/hunyuan/tc3_request, SignedHeaders=content-type;host, Signature=")]
  body := "\x7b\x7d"

/-!
## Helper lemmas
-/

/-- Every character emitted by `digChar` is an ASCII digit. -/
theorem digChar_isDigit (k : Nat) : (digChar k).isDigit = true := by
  have h : k % 10 < 10 := Nat.mod_lt _ (by norm_num)
  unfold digChar
  set r := k % 10 with hr
  interval_cases r <;> decide

/-- Year bounds of the civil-from-days conversion on the day range of
timestamps from 0000-01-01 through 9999-12-31 UTC. -/
theorem civil_year_bound (z0 : Int) (h1 : -719528 ≤ z0) (h2 : z0 ≤ 2932896) :
    0 ≤ (civilFromDays z0).1 ∧ (civilFromDays z0).1 ≤ 9999 := by
  unfold civilFromDays
  dsimp only
  set z := z0 + 719468 with hz
  set era := z / 146097 with hera
  set doe := z - era * 146097 with hdoe
  set g := doe / 1460 with hg
  set i := doe / 36524 with hi
  set j := doe / 146096 with hj
  set num := doe - g + i - j with hnum
  set yoe := num / 365 with hyoe
  set e := yoe / 4 with he
  set f := yoe / 100 with hf
  set doy := doe - (365 * yoe + e - f) with hdoy
  set mp := (5 * doy + 2) / 153 with hmp
  have hA : -1 ≤ era ∧ era ≤ 24 ∧ 0 ≤ doe ∧ doe ≤ 146096 ∧
      (era = -1 → 146037 ≤ doe) ∧ (era = 24 → doe ≤ 146036) := by omega
  have hB : 0 ≤ num ∧ num ≤ 145999 ∧ (146037 ≤ doe → 145939 ≤ num) := by omega
  have hC : 0 ≤ yoe ∧ yoe ≤ 399 ∧ (145939 ≤ num → yoe = 399) := by omega
  have hD : era = -1 → yoe = 399 ∧ 10 ≤ mp ∧ mp ≤ 11 := by
    intro hm
    have hdoe1 : 146037 ≤ doe := hA.2.2.2.2.1 hm
    have hyoe399 : yoe = 399 := hC.2.2 (hB.2.2 hdoe1)
    have he99 : e = 99 := by omega
    have hf3 : f = 3 := by omega
    have hdoy1 : doy = doe - 145731 := by omega
    refine ⟨hyoe399, ?_, ?_⟩ <;> omega
  have hE : era = 24 → yoe = 399 → 0 ≤ mp ∧ mp ≤ 9 := by
    intro hm hy
    have hdoe1 : doe ≤ 146036 := hA.2.2.2.2.2 hm
    have he99 : e = 99 := by omega
    have hf3 : f = 3 := by omega
    have hdoy1 : doy = doe - 145731 := by omega
    have hnum399 : 145635 ≤ num := by omega
    have hdoy0 : 0 ≤ doy := by
      rcases eq_or_lt_of_le hA.2.2.2.1 with hq | hq
      · omega
      · omega
    constructor <;> omega
  constructor
  · split_ifs <;> omega
  · split_ifs <;> omega

/-- For a nonnegative year the rendered date has the 8-digit
`YYYY-MM-DD` shape. -/
theorem formatYMD_shape (y m d : Int) (hy0 : 0 ≤ y) :
    isDateShape (formatYMD (y, m, d)) = true := by
  have hneg : ¬ y < 0 := by omega
  simp [formatYMD, hneg, pad4Chars, pad2Chars, isDateShape, digChar_isDigit]

/-!
## Claim C1
-/

/-- C1: for every input tuple and secret key (and every choice of the
external SHA-256/HMAC primitives), on every timestamp the date conversion
accepts, `tc3_sign` returns exactly the signature and scope prescribed by
the spec: canonical request newline-joined, string-to-sign
`TC3-HMAC-SHA256\n{timestamp}\n{credential_scope}\n{hex(sha256(canonical_request))}`,
key chain `HMAC("TC3"+secret_key, date)` then over `"hunyuan"` then over
`"tc3_request"`, and the lowercase-hex HMAC of the string to sign. -/
theorem c1_tc3_sign_matches_spec (crypto : CryptoPrim) (sk method uri query ch sh hp : String)
    (ts : Int) (h1 : -377705116800 ≤ ts) (h2 : ts ≤ 253402300799) :
    tc3_sign crypto sk method uri query ch sh hp ts =
      some (spec_signature crypto sk ts (spec_canonical_request method uri query ch sh hp),
        spec_credential_scope ts) := by
  unfold tc3_sign spec_signature spec_string_to_sign spec_credential_scope
    spec_date spec_canonical_request sha256_hex hmac_sha256 hmac_sha256_hex
    from_unix_timestamp SERVICE
  rw [if_pos (And.intro h1 h2)]
  rfl

/-- Witness for C1 at a concrete input. -/
theorem c1_tc3_sign_matches_spec_witness :
    tc3_sign cryptoZero "SK" "POST" "/" "" "ch" "content-type;host" "hp" 0 =
      some (spec_signature cryptoZero "SK" 0
        (spec_canonical_request "POST" "/" "" "ch" "content-type;host" "hp"),
        spec_credential_scope 0) :=
  c1_tc3_sign_matches_spec cryptoZero "SK" "POST" "/" "" "ch" "content-type;host" "hp" 0
    (by decide) (by decide)

/-!
## Claim C8
-/

/-- C8: `tc3_sign` succeeds exactly on the timestamps inside the date
library's representable range, -377705116800 (`-9999-01-01T00:00:00Z`)
through 253402300799 (`9999-12-31T23:59:59Z`); within it the date-conversion
unwraps cannot panic, outside it the signing panics (returns `none` in the
model) instead of returning an error value. -/
theorem c8_tc3_sign_panic_range (crypto : CryptoPrim)
    (sk method uri query ch sh hp : String) (ts : Int) :
    (tc3_sign crypto sk method uri query ch sh hp ts).isSome = true ↔
      (-377705116800 ≤ ts ∧ ts ≤ 253402300799) := by
  unfold tc3_sign from_unix_timestamp
  by_cases h : -377705116800 ≤ ts ∧ ts ≤ 253402300799
  · simp [h]
  · simp [h]

/-!
## Claim C4
-/

/-- C4 fails as stated: the timestamp -62167219201 (one second before
0000-01-01T00:00:00Z) is accepted by the signing engine, but the date inside
the returned credential scope is `-0001-12-31` — a sign and ten digits-or-
dashes — not the zero-padded 8-digit `YYYY-MM-DD` form the claim asserts for
every accepted timestamp. -/
theorem c4_counterexample_negative_year :
    tc3_sign cryptoZero "SK" "POST" "/" "" "ch" "sh" "hp" (-62167219201) =
      some ("", "-0001-12-31/hunyuan/tc3_request") ∧
    isDateShape "-0001-12-31" = false := by
  constructor
  · rfl
  · decide

/-- C4 (amended): for every timestamp accepted by the signing engine that is
not before 0000-01-01T00:00:00Z (unix -62167219200), the returned
credential_scope equals `{date}/hunyuan/tc3_request` where `date` is the
zero-padded 8-digit `YYYY-MM-DD` rendering of the UTC calendar date derived
from the timestamp argument itself (earlier accepted timestamps render the
negative year with a leading minus sign). -/
theorem c4_credential_scope_amended (crypto : CryptoPrim)
    (sk method uri query ch sh hp : String) (ts : Int)
    (h1 : -62167219200 ≤ ts) (h2 : ts ≤ 253402300799) :
    ∃ sig, tc3_sign crypto sk method uri query ch sh hp ts =
      some (sig, spec_date ts ++ "/" ++ "hunyuan" ++ "/tc3_request") ∧
      isDateShape (spec_date ts) = true := by
  have h1x : (-377705116800 : Int) ≤ ts := by omega
  have hday1 : (-719528 : Int) ≤ ts / 86400 := by omega
  have hday2 : ts / 86400 ≤ 2932896 := by omega
  have hy := civil_year_bound (ts / 86400) hday1 hday2
  refine ⟨spec_signature crypto sk ts (spec_canonical_request method uri query ch sh hp),
    ?_, ?_⟩
  · unfold tc3_sign spec_signature spec_string_to_sign spec_credential_scope
      spec_date spec_canonical_request sha256_hex hmac_sha256 hmac_sha256_hex
      from_unix_timestamp SERVICE
    rw [if_pos (And.intro h1x h2)]
    rfl
  · unfold spec_date
    rcases hc : civilFromDays (ts / 86400) with ⟨y, m, d⟩
    rw [hc] at hy
    exact formatYMD_shape y m d hy.1

/-- Witness for the amended C4 at a concrete timestamp. -/
theorem c4_credential_scope_amended_witness :
    ∃ sig, tc3_sign cryptoZero "SK" "POST" "/" "" "ch" "sh" "hp" 0 =
      some (sig, spec_date 0 ++ "/" ++ "hunyuan" ++ "/tc3_request") ∧
      isDateShape (spec_date 0) = true :=
  c4_credential_scope_amended cryptoZero "SK" "POST" "/" "" "ch" "sh" "hp" 0
    (by decide) (by decide)

/-!
## Claim C2
-/

/-- C2 fails on the code: the spec's end-to-end scenario 2 delivers HTTP 401
with the vendor error nested under `Response`, but the error-envelope struct
declares top-level `RequestId`/`Error` fields, so the body parses with both
fields empty and the invocation synthesizes `HTTP_401` with the raw body
instead of surfacing `AuthFailure.SignatureFailure` / `bad sig` / `r2`. -/
theorem c2_nested_error_envelope_not_surfaced :
    processResponse (fun _ => (none : Option Unit)) 401 body401 =
      Except.error (SdkError.service "HTTP_401" body401 none) ∧
    tencentCloudErrorResponseFromStr body401 =
      some { request_id := none, error := none } ∧
    SdkError.service "HTTP_401" body401 none ≠
      SdkError.service "AuthFailure.SignatureFailure" "bad sig" (some "r2") := by
  refine ⟨rfl, by decide, by decide⟩

/-!
## Claim C5
-/

/-- C5: on every non-2xx response, if the body parses as the vendor error
envelope with a populated `Error` field the call surfaces that code, message
and the envelope's optional request id; otherwise it surfaces
`HTTP_{status}` with the raw body as message — and concretely HTTP 500 with
the non-JSON body `internal error` yields code `HTTP_500` and that body. -/
theorem c5_non2xx_error_mapping :
    (∀ (T : Type) (parseT : String → Option T) (status : Nat) (text : String),
      is_success status = false →
      ((∃ env e, tencentCloudErrorResponseFromStr text = some env ∧
          env.error = some e ∧
          processResponse parseT status text =
            Except.error (SdkError.service e.code e.message env.request_id)) ∨
       ((tencentCloudErrorResponseFromStr text = none ∨
          (∃ env, tencentCloudErrorResponseFromStr text = some env ∧ env.error = none)) ∧
        processResponse parseT status text =
          Except.error (SdkError.service ("HTTP_" ++ toString status) text none)))) ∧
    processResponse (fun _ => (none : Option Unit)) 500 "internal error" =
      Except.error (SdkError.service "HTTP_500" "internal error" none) := by
  constructor
  · intro T parseT status text h
    rcases henv : tencentCloudErrorResponseFromStr text with _ | env
    · refine Or.inr ⟨Or.inl rfl, ?_⟩
      simp [processResponse, h, henv]
    · rcases herr : env.error with _ | e
      · refine Or.inr ⟨Or.inr ⟨env, rfl, herr⟩, ?_⟩
        simp [processResponse, h, henv, herr]
      · refine Or.inl ⟨env, e, rfl, herr, ?_⟩
        simp [processResponse, h, henv, herr]
  · rfl

/-- Witness for C5 at a concrete non-2xx response whose body is the
top-level vendor error envelope. -/
theorem c5_non2xx_error_mapping_witness :
    (∃ env e, tencentCloudErrorResponseFromStr
        "\x7b\"Error\":\x7b\"Code\":\"C1\",\"Message\":\"M1\"\x7d,\"RequestId\":\"r9\"\x7d" = some env ∧
        env.error = some e ∧
        processResponse (fun _ => (none : Option Unit)) 401
          "\x7b\"Error\":\x7b\"Code\":\"C1\",\"Message\":\"M1\"\x7d,\"RequestId\":\"r9\"\x7d" =
          Except.error (SdkError.service e.code e.message env.request_id)) ∨
    ((tencentCloudErrorResponseFromStr
        "\x7b\"Error\":\x7b\"Code\":\"C1\",\"Message\":\"M1\"\x7d,\"RequestId\":\"r9\"\x7d" = none ∨
      (∃ env, tencentCloudErrorResponseFromStr
          "\x7b\"Error\":\x7b\"Code\":\"C1\",\"Message\":\"M1\"\x7d,\"RequestId\":\"r9\"\x7d" = some env ∧
          env.error = none)) ∧
     processResponse (fun _ => (none : Option Unit)) 401
        "\x7b\"Error\":\x7b\"Code\":\"C1\",\"Message\":\"M1\"\x7d,\"RequestId\":\"r9\"\x7d" =
        Except.error (SdkError.service ("HTTP_" ++ toString 401)
          "\x7b\"Error\":\x7b\"Code\":\"C1\",\"Message\":\"M1\"\x7d,\"RequestId\":\"r9\"\x7d" none)) :=
  c5_non2xx_error_mapping.1 Unit (fun _ => none) 401
    "\x7b\"Error\":\x7b\"Code\":\"C1\",\"Message\":\"M1\"\x7d,\"RequestId\":\"r9\"\x7d" rfl

/-!
## Claim C6
-/

/-- C6: on every 2xx response the body is parsed as the success envelope
`\x7bResponse: T\x7d`; the call returns a serialization error exactly when that
parse fails, returns the parsed envelope otherwise, and never returns a
service error (no retry exists in the code). -/
theorem c6_2xx_parse_iff_serde (T : Type) (decT : Json → Option T)
    (status : Nat) (text : String) (h : is_success status = true) :
    (processResponse (tencentCloudResponseFromStr decT) status text =
        Except.error SdkError.serde ↔
      tencentCloudResponseFromStr decT text = none) ∧
    (∀ v, tencentCloudResponseFromStr decT text = some v →
      processResponse (tencentCloudResponseFromStr decT) status text = Except.ok v) ∧
    (∀ code msg rid, processResponse (tencentCloudResponseFromStr decT) status text ≠
      Except.error (SdkError.service code msg rid)) := by
  rcases hp : tencentCloudResponseFromStr decT text with _ | v
  · refine ⟨by simp [processResponse, h, hp], ?_, ?_⟩
    · intro v hv
      cases hv
    · intro code msg rid
      simp [processResponse, h, hp]
  · refine ⟨by simp [processResponse, h, hp], ?_, ?_⟩
    · intro w hw
      cases hw
      simp [processResponse, h, hp]
    · intro code msg rid
      simp [processResponse, h, hp]

/-- Witness for C6 on a 2xx response with an unparseable body. -/
theorem c6_2xx_parse_iff_serde_witness :
    (processResponse (tencentCloudResponseFromStr (fun j => some j)) 200 "internal error" =
        Except.error SdkError.serde ↔
      tencentCloudResponseFromStr (fun j => some j) "internal error" = none) ∧
    (∀ v, tencentCloudResponseFromStr (fun j => some j) "internal error" = some v →
      processResponse (tencentCloudResponseFromStr (fun j => some j)) 200 "internal error" =
        Except.ok v) ∧
    (∀ code msg rid,
      processResponse (tencentCloudResponseFromStr (fun j => some j)) 200 "internal error" ≠
        Except.error (SdkError.service code msg rid)) :=
  c6_2xx_parse_iff_serde Json (fun j => some j) 200 "internal error" rfl

/-!
## Claim C3
-/

/-- C3: in every assembled request, recomputing the signature from the
Content-Type and Host header values actually placed in the request — joined
in the order declared by `signed_headers = "content-type;host"` — and from
the request's own X-TC-Timestamp value yields exactly the signature and
scope embedded in the Authorization header, and the X-TC-Timestamp header
carries the single timestamp captured for the call. -/
theorem c3_canonical_headers_consistency (crypto : CryptoPrim) (c : Client)
    (action body : String) (ts : Int) (req : OutgoingRequest)
    (hreq : call_action_request crypto c action body ts = some req) :
    ∃ ct host tsv sig scope,
      req.headers.lookup "Content-Type" = some ct ∧
      req.headers.lookup "Host" = some host ∧
      req.headers.lookup "X-TC-Timestamp" = some tsv ∧
      tsv = toString ts ∧
      tc3_sign crypto c.credential.secret_key "POST" "/" ""
        ("content-type:" ++ ct ++ "\nhost:" ++ host ++ "\n") "content-type;host"
        (sha256_hex crypto body) ts = some (sig, scope) ∧
      req.headers.lookup "Authorization" =
        some ("TC3-HMAC-SHA256 Credential=" ++ c.credential.secret_id ++ "/" ++ scope ++
          ", SignedHeaders=" ++ "content-type;host" ++ ", Signature=" ++ sig) := by
  unfold call_action_request at hreq
  dsimp only at hreq
  rcases hsig : tc3_sign crypto c.credential.secret_key "POST" "/" ""
      ("content-type:application/json; charset=utf-8\nhost:" ++ c.endpoint ++ "\n")
      "content-type;host" (sha256_hex crypto body) ts with _ | p
  · rw [hsig] at hreq
    cases hreq
  · rcases p with ⟨sig, scope⟩
    rw [hsig] at hreq
    cases hreq
    refine ⟨"application/json; charset=utf-8", c.endpoint, toString ts, sig, scope,
      ?_, ?_, ?_, rfl, hsig, ?_⟩ <;>
    · rcases htok : c.credential.token with _ | t <;>
        simp [build_headers, htok, List.lookup]

/-- Witness for C3 at a concrete client, body and timestamp. -/
theorem c3_canonical_headers_consistency_witness :
    ∃ req, call_action_request cryptoZero clientTok "ChatCompletions" "\x7b\x7d" 0 = some req ∧
      ∃ ct host tsv sig scope,
        req.headers.lookup "Content-Type" = some ct ∧
        req.headers.lookup "Host" = some host ∧
        req.headers.lookup "X-TC-Timestamp" = some tsv ∧
        tsv = toString (0 : Int) ∧
        tc3_sign cryptoZero clientTok.credential.secret_key "POST" "/" ""
          ("content-type:" ++ ct ++ "\nhost:" ++ host ++ "\n") "content-type;host"
          (sha256_hex cryptoZero "\x7b\x7d") 0 = some (sig, scope) ∧
        req.headers.lookup "Authorization" =
          some ("TC3-HMAC-SHA256 Credential=" ++ clientTok.credential.secret_id ++ "/" ++
            scope ++ ", SignedHeaders=" ++ "content-type;host" ++ ", Signature=" ++ sig) :=
  ⟨reqWitness, rfl,
    c3_canonical_headers_consistency cryptoZero clientTok "ChatCompletions" "\x7b\x7d" 0
      reqWitness rfl⟩

/-!
## Claim C7
-/

/-- C7: `ClientBuilder::build` fails fatally (panics, modelled as `none`)
exactly when no credential was supplied; with a credential it succeeds and
applies the defaults `ap-guangzhou` and `hunyuan.tencentcloudapi.com` for
unset region and endpoint. -/
theorem c7_builder_credential_required (b : ClientBuilder) (envVar : Option String) :
    (b.build envVar = none ↔ b.credential = none) ∧
    (∀ cred, b.credential = some cred →
      b.build envVar = some
        { credential := cred,
          region := b.region.getD Region.ApGuangzhou,
          endpoint := b.endpoint.getD "hunyuan.tencentcloudapi.com",
          debug := b.debug.getD (envDebugFlag envVar) }) := by
  rcases hc : b.credential with _ | cred
  · constructor
    · simp [ClientBuilder.build, hc]
    · intro cred h
      cases h
  · constructor
    · simp [ClientBuilder.build, hc]
    · intro cred2 h
      cases h
      simp [ClientBuilder.build, hc]
      rfl

/-- Witness for C7: a builder without credential fails, one with a
credential succeeds with the defaults. -/
theorem c7_builder_credential_required_witness :
    ClientBuilder.build
      { credential := none, region := none, endpoint := none, debug := none } none = none ∧
    ClientBuilder.build
      { credential := some { secret_id := "AKID", secret_key := "SK", token := none },
        region := none, endpoint := none, debug := none } none =
      some { credential := { secret_id := "AKID", secret_key := "SK", token := none },
             region := Region.ApGuangzhou,
             endpoint := "hunyuan.tencentcloudapi.com",
             debug := false } :=
  ⟨(c7_builder_credential_required
      { credential := none, region := none, endpoint := none, debug := none } none).1.mpr rfl,
   (c7_builder_credential_required
      { credential := some { secret_id := "AKID", secret_key := "SK", token := none },
        region := none, endpoint := none, debug := none } none).2
     { secret_id := "AKID", secret_key := "SK", token := none } rfl⟩

/-!
## Claim C9
-/

/-- C9: the outgoing header set contains X-TC-Token with exactly the
credential's token when one is present, and no X-TC-Token header when the
token is absent. -/
theorem c9_token_header (c : Client) (action body : String) (ts : Int) :
    (∀ t, c.credential.token = some t →
      (build_headers c action body ts).lookup "X-TC-Token" = some t) ∧
    (c.credential.token = none →
      (build_headers c action body ts).lookup "X-TC-Token" = none) := by
  constructor
  · intro t ht
    simp [build_headers, ht, List.lookup]
  · intro ht
    simp [build_headers, ht, List.lookup]

/-- Witness for C9 with and without a session token. -/
theorem c9_token_header_witness :
    (build_headers clientTok "ChatCompletions" "\x7b\x7d" 0).lookup "X-TC-Token" = some "tok" ∧
    (build_headers clientNoTok "ChatCompletions" "\x7b\x7d" 0).lookup "X-TC-Token" = none :=
  ⟨(c9_token_header clientTok "ChatCompletions" "\x7b\x7d" 0).1 "tok" rfl,
   (c9_token_header clientNoTok "ChatCompletions" "\x7b\x7d" 0).2 rfl⟩

/-!
## Claim C10
-/

/-- Encoding then decoding a message list is the identity. -/
theorem messages_roundtrip (msgs : List Message) :
    decodeMessages (msgs.map Message.toJson) = some msgs := by
  induction msgs with
  | nil => rfl
  | cons m rest ih =>
    rcases m with ⟨r, c⟩
    simp [Message.toJson, Message.fromJson, decodeMessages, ih, List.lookup]

/-- C10: serializing a `ChatCompletionsRequest` whose optional fields are all
unset and deserializing the result restores the request exactly: the
optional fields stay unset and the message list is unchanged. -/
theorem c10_request_roundtrip (F : Type) (encF : F → Json) (decF : Json → Option F)
    (r : ChatCompletionsRequest F) (hm : r.model = none) (ht : r.temperature = none)
    (hp : r.top_p = none) (hs : r.stream = none) :
    ChatCompletionsRequest.fromJson decF (ChatCompletionsRequest.toJson encF r) = some r := by
  rcases r with ⟨mo, msgs, te, tp, st⟩
  dsimp only at hm ht hp hs
  subst hm ht hp hs
  simp [ChatCompletionsRequest.toJson, ChatCompletionsRequest.fromJson,
    encodeOptField, decodeOptField, List.lookup, messages_roundtrip msgs]

/-- Witness for C10 at a concrete one-message request. -/
theorem c10_request_roundtrip_witness :
    ChatCompletionsRequest.fromJson (fun _ => (none : Option Unit))
      (ChatCompletionsRequest.toJson (fun _ => Json.null)
        ({ model := none, messages := [{ role := "user", content := "Hello" }],
           temperature := none, top_p := none, stream := none } :
          ChatCompletionsRequest Unit)) =
      some { model := none, messages := [{ role := "user", content := "Hello" }],
             temperature := none, top_p := none, stream := none } :=
  c10_request_roundtrip Unit (fun _ => Json.null) (fun _ => none)
    ({ model := none, messages := [{ role := "user", content := "Hello" }],
       temperature := none, top_p := none, stream := none } :
      ChatCompletionsRequest Unit) rfl rfl rfl rfl
